import Mathlib

/-!
Verification of the KERALA-STRINGS registration server (`src/server.py`).

The server is a single-file Flask application over a Postgres table
`registration`.  We shallowly embed the request handlers as pure Lean
functions.  External effects that the Python code cannot determine
(whether the database connection is up, whether the pre-insert duplicate
check raises, and how the database reacts to the final INSERT) are
Boolean/enumerated fields of an `Env` record, so that every concrete run
of the handler corresponds to one choice of `Env`.

Python-specific semantics embedded faithfully:
- `a or b` on optional strings returns `b` when `a` is `None` or the
  empty string (Python truthiness), modelled by `pyOr`;
- `if s:` on an optional string is true only for a present non-empty
  string;
- `int(s)` is modelled by an abstract parameter `pyInt : String → Option Int`
  (`none` models a raised `ValueError`/`Exception`, which the handler
  catches);
- `'int' in dt` is a substring test, modelled by `hasSub`;
- SQL `LOWER` is modelled by `lowerStr` (ASCII per-char lowercasing).
-/

set_option autoImplicit false

namespace KeralaStrings

/-- A submitted HTML form: association list of field name / value, with
`getField` returning the first binding like Flask's `request.form.get`. -/
abbrev Form := List (String × String)

def getField (f : Form) (k : String) : Option String :=
  (f.find? (fun p => p.1 == k)).map (fun p => p.2)

/-- Python `a or b` for optional strings: `None` and `""` are falsy. -/
def pyOr (a b : Option String) : Option String :=
  match a with
  | some s => if s = "" then b else some s
  | none => b

/-- A SQL value as stored in a `registration` row: NULL, a text value, or
an integer value. -/
inductive Val where
  | null
  | s (v : String)
  | i (n : Int)
  deriving DecidableEq, Repr

/-- One row of `information_schema.columns` for table `registration`,
as read by the two introspection queries in `submit` (lines 115-120 and
149-154 read the same catalog, so one record carries all four fields). -/
structure Column where
  name : String
  dataType : String
  /-- Column is_nullable, the string the code compares with the literal NO. -/
  isNullable : String
  /-- Column default expression: `none` models SQL NULL (no default). -/
  colDefault : Option String
  deriving DecidableEq, Repr

def findCol (schema : List Column) (c : String) : Option Column :=
  schema.find? (fun col => col.name == c)

/-- A stored registration row: assignment of values to column names. -/
abbrev Row := List (String × Val)

def getVal (r : Row) (c : String) : Option Val :=
  (r.find? (fun p => p.1 == c)).map (fun p => p.2)

/-- ASCII lowercasing, the model of SQL `LOWER`. -/
def lowerStr (s : String) : String := String.mk (s.data.map Char.toLower)

/-- The predicate of the pre-insert query
`SELECT 1 FROM registration WHERE LOWER(email) = LOWER(%s)`:
a stored NULL never matches (SQL three-valued logic). -/
def emailMatches (e : String) (r : Row) : Bool :=
  match getVal r "email" with
  | some (Val.s v) => lowerStr v == lowerStr e
  | _ => false

/-- The predicate of `SELECT 1 FROM registration WHERE username = %s`. -/
def usernameMatches (u : String) (r : Row) : Bool :=
  match getVal r "username" with
  | some (Val.s v) => v == u
  | _ => false

/-- How the database reacts when `cur.execute(INSERT ...)` runs:
success, or one of the exception classes caught at lines 224-249. -/
inductive InsertOutcome where
  | ok
  | uniqueViolation
  | integrityError
  | otherError
  deriving DecidableEq, Repr

/-- Environment of one `/submit` request: module-level connection state,
the introspected schema, the current table contents, and the fallible
external events. -/
structure Env where
  /-- Holds when `cur` and `conn` are both not None (lines 16-33, 93). -/
  connected : Bool
  /-- Rows of `information_schema.columns` for `registration`. -/
  schema : List Column
  /-- Current contents of the `registration` table. -/
  rows : List Row
  /-- The pre-insert duplicate-check block (lines 158-188) raises at one
  of its queries; the inner `except Exception` then skips the rest of
  the block and the handler proceeds. -/
  checkRaises : Bool
  /-- Reaction of the database to the final INSERT. -/
  insertOutcome : InsertOutcome
  deriving Repr

/-- The distinct HTTP responses `submit` can produce, with the payloads
the claims mention. -/
inductive Resp where
  /-- Line 95: DB not connected. -/
  | dbNotConnected
  /-- Lines 170-172: email already registered. -/
  | emailTaken (e : String)
  /-- Lines 182-184: username already taken. -/
  | usernameTaken (u : String)
  /-- Line 205: no matching columns. -/
  | noMatchingCols
  /-- Lines 213-215: NOT NULL column without default got no value. -/
  | requiredMissing (col : String)
  /-- Line 222: `redirect('/success')` after a committed INSERT. -/
  | redirectSuccess
  /-- Lines 231-232: UniqueViolation from the INSERT. -/
  | duplicateValue
  /-- Line 241: other IntegrityError from the INSERT. -/
  | integrityError
  /-- Line 249: generic exception page (returned with no status code,
  so Flask serves it as 200). -/
  | genericError
  deriving DecidableEq, Repr

/-- HTTP status code of each response. -/
def Resp.status : Resp → Nat
  | .dbNotConnected => 500
  | .emailTaken _ => 409
  | .usernameTaken _ => 409
  | .noMatchingCols => 500
  | .requiredMissing _ => 400
  | .redirectSuccess => 302
  | .duplicateValue => 400
  | .integrityError => 400
  | .genericError => 200

/-- Result of one `/submit` request: the response, the table contents
after the request (commit or rollback applied), and how many INSERT
statements were executed. -/
structure Outcome where
  resp : Resp
  rows : List Row
  inserts : Nat
  deriving DecidableEq, Repr

/-! ### Form-field extraction (lines 97-111) -/

def fullNameOf (f : Form) : Option String :=
  pyOr (getField f "full_name")
    (pyOr (getField f "name") (pyOr (getField f "fullname") (getField f "fullName")))

def usernameOf (f : Form) : Option String :=
  pyOr (getField f "username") (getField f "user")

def passwordHashOf (f : Form) : Option String :=
  pyOr (getField f "password_hash") (getField f "password")

def emailOf (f : Form) : Option String := getField f "email"

def phoneOf (f : Form) : Option String := getField f "phone"

def fatherNameOf (f : Form) : Option String :=
  pyOr (getField f "father_name") (getField f "father")

def motherNameOf (f : Form) : Option String :=
  pyOr (getField f "mother_name") (getField f "mother")

def addressOf (f : Form) : Option String := getField f "address"

/-- Lines 107-111: `age = int(data.get('age')) if data.get('age') else None`,
with `ValueError` caught and coerced to `None`.  `pyInt` is the abstract
Python `int` parser; `pyInt s = none` models a raised `ValueError`. -/
def ageOf (pyInt : String → Option Int) (f : Form) : Option Int :=
  match getField f "age" with
  | some a => if a = "" then none else pyInt a
  | none => none

/-! ### Candidate values and user_id handling (lines 122-146) -/

/-- The needle `n` occurs as a contiguous substring of the second list
(Python `needle in haystack` on strings). -/
def hasSub (n : List Char) : List Char → Bool
  | [] => n.isEmpty
  | c :: rest => n.isPrefixOf (c :: rest) || hasSub n rest

/-- Line 140: `'int' in dt`. -/
def hasIntType (dt : String) : Bool := hasSub "int".toList dt.toList

def toVal : Option String → Val
  | some v => Val.s v
  | none => Val.null

/-- Lines 136-146: the candidate value for `user_id`.  When the column
exists with an integer type, `int(raw_user_id)` is attempted only when
the raw value is present (`is not None`), any exception yielding NULL;
for a non-integer type the value is `raw_user_id or username`. -/
def userIdCand (schema : List Column) (pyInt : String → Option Int)
    (rawUserId username : Option String) : Val :=
  match findCol schema "user_id" with
  | none => Val.null
  | some col =>
    if hasIntType col.dataType then
      match rawUserId with
      | some s =>
        match pyInt s with
        | some n => Val.i n
        | none => Val.null
      | none => Val.null
    else toVal (pyOr rawUserId username)

/-- Lines 122-146: the `candidates` dict as a function of the column
name; `candidates.get(col)` for a key outside the dict is `None`. -/
def candOf (schema : List Column) (pyInt : String → Option Int) (f : Form)
    (col : String) : Val :=
  if col = "full_name" then toVal (fullNameOf f)
  else if col = "user_id" then userIdCand schema pyInt (getField f "user_id") (usernameOf f)
  else if col = "username" then toVal (usernameOf f)
  else if col = "password_hash" then toVal (passwordHashOf f)
  else if col = "email" then toVal (emailOf f)
  else if col = "phone" then toVal (phoneOf f)
  else if col = "father_name" then toVal (fatherNameOf f)
  else if col = "mother_name" then toVal (motherNameOf f)
  else if col = "address" then toVal (addressOf f)
  else if col = "age" then
    match ageOf pyInt f with
    | some n => Val.i n
    | none => Val.null
  else Val.null

/-- Line 193: `desired_order`. -/
def desiredOrder : List String :=
  ["full_name", "user_id", "username", "password_hash", "email", "phone",
   "father_name", "mother_name", "address", "age"]

/-! ### Building the INSERT column/value lists (lines 190-202) -/

/-- The loop of lines 194-202 over a column list: keep columns present
in the schema, skipping a column whose candidate value is NULL when the
column has a database default.  `insert_cols` and `values` are kept in
lockstep, modelled as one list of pairs. -/
def buildOver (schema : List Column) (cand : String → Val) :
    List String → List (String × Val)
  | [] => []
  | col :: rest =>
    match findCol schema col with
    | none => buildOver schema cand rest
    | some meta =>
      if cand col == Val.null && meta.colDefault.isSome then
        buildOver schema cand rest
      else (col, cand col) :: buildOver schema cand rest

/-- The column/value pairs of the INSERT statement built for form `f`. -/
def builtRow (env : Env) (pyInt : String → Option Int) (f : Form) : Row :=
  buildOver env.schema (candOf env.schema pyInt f) desiredOrder

/-! ### Required-column validation (lines 207-215) -/

/-- Lines 208-215: the first insert column that is NOT NULL, has no
default, and whose value is `None`. -/
def firstMissingRequired (schema : List Column) : List (String × Val) → Option String
  | [] => none
  | (col, v) :: rest =>
    match findCol schema col with
    | some meta =>
      if meta.isNullable == "NO" && meta.colDefault.isNone && v == Val.null then some col
      else firstMissingRequired schema rest
    | none => firstMissingRequired schema rest

/-! ### Duplicate pre-check (lines 156-188) -/

inductive CheckResult where
  | retEmail (e : String)
  | retUsername (u : String)
  | proceed
  deriving DecidableEq, Repr

/-- Lines 174-184: `if username:` then query for an exact match. -/
def usernameCheck (env : Env) (username : Option String) : CheckResult :=
  match username with
  | some u =>
    if u ≠ "" then
      if env.rows.any (usernameMatches u) then CheckResult.retUsername u
      else CheckResult.proceed
    else CheckResult.proceed
  | none => CheckResult.proceed

/-- Lines 158-188.  When the block raises (`checkRaises`), the inner
`except Exception` logs and the handler proceeds, skipping any remaining
query of the block.  Otherwise `if email:` guards a case-insensitive
lookup, then `if username:` an exact lookup; a hit returns 409 after a
rollback. -/
def dupCheck (env : Env) (email username : Option String) : CheckResult :=
  if env.checkRaises then CheckResult.proceed
  else
    match email with
    | some e =>
      if e ≠ "" then
        if env.rows.any (emailMatches e) then CheckResult.retEmail e
        else usernameCheck env username
      else usernameCheck env username
    | none => usernameCheck env username

/-! ### The /submit handler (lines 88-249) -/

/-- Lines 190-249: build the INSERT, validate, execute, and commit or
roll back.  On success the inserted row carries exactly the explicit
column/value pairs; on any raised exception the rollback leaves the
table unchanged. -/
def insertStage (env : Env) (pyInt : String → Option Int) (f : Form) : Outcome :=
  if (builtRow env pyInt f).isEmpty then ⟨Resp.noMatchingCols, env.rows, 0⟩
  else
    match firstMissingRequired env.schema (builtRow env pyInt f) with
    | some col => ⟨Resp.requiredMissing col, env.rows, 0⟩
    | none =>
      match env.insertOutcome with
      | InsertOutcome.ok => ⟨Resp.redirectSuccess, env.rows ++ [builtRow env pyInt f], 1⟩
      | InsertOutcome.uniqueViolation => ⟨Resp.duplicateValue, env.rows, 1⟩
      | InsertOutcome.integrityError => ⟨Resp.integrityError, env.rows, 1⟩
      | InsertOutcome.otherError => ⟨Resp.genericError, env.rows, 1⟩

/-- The whole POST /submit handler (lines 88-249). -/
def submit (env : Env) (pyInt : String → Option Int) (f : Form) : Outcome :=
  if env.connected then
    match dupCheck env (emailOf f) (usernameOf f) with
    | CheckResult.retEmail e => ⟨Resp.emailTaken e, env.rows, 0⟩
    | CheckResult.retUsername u => ⟨Resp.usernameTaken u, env.rows, 0⟩
    | CheckResult.proceed => insertStage env pyInt f
  else ⟨Resp.dbNotConnected, env.rows, 0⟩

/-! ### The /login handler (lines 57-69) and session -/

/-- The Flask session, restricted to the one key the code uses:
`user := none` means the key is absent, `user := some v` means
`session['user'] = v` (where `v` itself may be Python `None`). -/
structure SessionState where
  user : Option (Option String)
  deriving DecidableEq, Repr

inductive LoginResp where
  | redirectHomeLoggedin
  | loginFormPage
  deriving DecidableEq, Repr

/-- Lines 59-62: on POST, store `request.form.get('username')` in the
session and redirect to `/home_loggedin`; no credential is consulted. -/
def loginPost (s : SessionState) (f : Form) : LoginResp × SessionState :=
  let _ := s
  (LoginResp.redirectHomeLoggedin, { user := some (getField f "username") })

/-- Lines 71-74: `/logout` pops the session key. -/
def logoutReq (s : SessionState) : SessionState :=
  let _ := s
  { user := none }

/-! ### Whole-system table effect (for the lifecycle claim) -/

/-- The requests the application routes (lines 57, 71, 76, 88, 251, 260,
265).  The module-level sequence setup (lines 36-54) issues only
CREATE SEQUENCE / ALTER / setval, which touch no registration row. -/
inductive Request where
  | loginGet
  | loginPostReq (f : Form)
  | logout
  | index
  | submitPost (f : Form)
  | successPage
  | homeLoggedin
  | dbStatus

/-- The `registration` table contents after serving one request.  Only
`/submit` contains any DML on the table; every other handler renders a
page, serves a file, manipulates the session, or runs `SELECT 1`. -/
def rowsAfter (env : Env) (pyInt : String → Option Int) : Request → List Row
  | Request.submitPost f => (submit env pyInt f).rows
  | _ => env.rows

/-! ### Spec-side characterisations (for refinement statements) -/

/-- Spec-side selection predicate: a column of the fixed list is kept
when it is present in the introspected schema, except when its candidate
value is NULL and the column has a database default. -/
def specSelected (schema : List Column) (cand : String → Val) (col : String) : Bool :=
  match findCol schema col with
  | none => false
  | some meta => !(cand col == Val.null && meta.colDefault.isSome)

/-- Spec-side fallback chain: the value of the first listed field that
is present with a non-empty value; when every listed field is falsy, the
value of the last listed field (Python `a or b or ...` semantics). -/
def specFallback (f : Form) : List String → Option String
  | [] => none
  | [k] => getField f k
  | k :: k2 :: rest =>
    match getField f k with
    | some v => if v = "" then specFallback f (k2 :: rest) else some v
    | none => specFallback f (k2 :: rest)

/-- A duplicate hit of the email pre-check for form `f` against the
current table: a present non-empty email that some row matches
case-insensitively. -/
def emailHit (env : Env) (f : Form) : Bool :=
  match emailOf f with
  | some e => !(e == "") && env.rows.any (emailMatches e)
  | none => false

/-- A duplicate hit of the username pre-check. -/
def usernameHit (env : Env) (f : Form) : Bool :=
  match usernameOf f with
  | some u => !(u == "") && env.rows.any (usernameMatches u)
  | none => false

/-- Row `r` duplicates some row of `t` on email (case-insensitive) or
username — the uniqueness the database constraint is trusted to enforce. -/
def dupAgainst (r : Row) (t : List Row) : Bool :=
  t.any (fun r0 =>
    (match getVal r "email", getVal r0 "email" with
     | some (Val.s a), some (Val.s b) => lowerStr a == lowerStr b
     | _, _ => false) ||
    (match getVal r "username", getVal r0 "username" with
     | some (Val.s a), some (Val.s b) => a == b
     | _, _ => false))

/-- A column of the insert list that the required-column validation
rejects: NOT NULL, no default, value NULL. -/
def isMissingRequired (schema : List Column) (p : String × Val) : Bool :=
  match findCol schema p.1 with
  | some meta => meta.isNullable == "NO" && meta.colDefault.isNone && p.2 == Val.null
  | none => false

/-- Remove a field from a form (used to compare a request with an
unparseable value to the same request without the field). -/
def eraseField (f : Form) (k : String) : Form :=
  f.filter (fun p => !(p.1 == k))

/-! ### Concrete fixtures for witnesses and counterexamples -/

/-- The `registration` schema matching the setup code: `user_id` is an
integer column defaulted by the sequence (lines 36-45), `username` is
NOT NULL without default, the rest nullable. -/
def schemaA : List Column :=
  [⟨"full_name", "text", "YES", none⟩,
   ⟨"user_id", "integer", "NO", some "nextval(registration_user_id_seq::regclass)"⟩,
   ⟨"username", "character varying", "NO", none⟩,
   ⟨"password_hash", "text", "YES", none⟩,
   ⟨"email", "character varying", "YES", none⟩,
   ⟨"phone", "text", "YES", none⟩,
   ⟨"father_name", "text", "YES", none⟩,
   ⟨"mother_name", "text", "YES", none⟩,
   ⟨"address", "text", "YES", none⟩,
   ⟨"age", "integer", "YES", none⟩]

/-- An `int` parser that fails on every string (all `ValueError`). -/
def pyIntNone : String → Option Int := fun _ => none

/-- An existing registration row. -/
def rowBob : Row :=
  [("full_name", Val.s "Bob B"), ("user_id", Val.i 1),
   ("username", Val.s "bob"), ("email", Val.s "Bob@Example.com")]

/-- A row whose email is the empty string (producible by this very
handler from a form whose email field is left empty). -/
def rowEmptyEmail : Row :=
  [("full_name", Val.s "Eve E"), ("user_id", Val.i 2),
   ("username", Val.s "eve"), ("email", Val.s "")]

/-- Healthy environment: connected, table holds `rowBob`, check works,
database accepts the INSERT. -/
def envA : Env :=
  ⟨true, schemaA, [rowBob], false, InsertOutcome.ok⟩

/-- Environment whose table holds a row with empty-string email and
whose unique index fires on the INSERT. -/
def envEmpty : Env :=
  ⟨true, schemaA, [rowEmptyEmail], false, InsertOutcome.uniqueViolation⟩

/-- Environment where the pre-insert check raises and the database
reports a UniqueViolation on INSERT. -/
def envRaise : Env :=
  ⟨true, schemaA, [rowBob], true, InsertOutcome.uniqueViolation⟩

/-- A complete fresh registration form. -/
def formA : Form :=
  [("full_name", "Alice A"), ("username", "alice"), ("password", "pw1"),
   ("email", "alice@example.com"), ("phone", "111"), ("father_name", "F"),
   ("mother_name", "M"), ("address", "Addr 1"), ("age", "20")]

/-- A form whose email duplicates `rowBob` case-insensitively. -/
def formDupEmail : Form :=
  [("full_name", "Carl C"), ("username", "carl"), ("password", "pw2"),
   ("email", "bob@example.COM")]

/-- A form with an empty email field, as an empty HTML input submits it. -/
def formEmptyEmail : Form :=
  [("full_name", "Dan D"), ("username", "dan"), ("password", "pw3"),
   ("email", "")]

/-- The form `formA` with an unparseable `user_id` field prepended. -/
def formBadUid : Form := ("user_id", "abc") :: formA

/-- The `user_id` column of `schemaA`. -/
def userIdColA : Column :=
  ⟨"user_id", "integer", "NO", some "nextval(registration_user_id_seq::regclass)"⟩

/-- A form that supplies no username at all. -/
def formNoUsername : Form := [("email", "x@y.z"), ("full_name", "Q")]

/-- An empty session. -/
def sess0 : SessionState := ⟨none⟩

/-- Two login forms that differ only in the password field. -/
def formLoginA : Form := [("username", "alice"), ("password", "secret1")]

def formLoginB : Form := [("username", "alice"), ("password", "other2")]

/-- A form whose canonical full_name field is present but empty while the
alternative name field carries a value. -/
def formEmptyCanonical : Form := [("full_name", ""), ("name", "bob")]

/-! ## Helper lemmas -/

theorem buildOver_map_fst (schema : List Column) (cand : String → Val) :
    ∀ cols : List String,
      (buildOver schema cand cols).map Prod.fst = cols.filter (specSelected schema cand) := by
  intro cols
  induction cols with
  | nil => rfl
  | cons col rest ih =>
    simp only [buildOver]
    cases h : findCol schema col with
    | none => simp [List.filter_cons, specSelected, h, ih]
    | some meta =>
      by_cases hc : (cand col == Val.null && meta.colDefault.isSome) = true
      · simp [List.filter_cons, specSelected, h, hc, ih]
      · simp [List.filter_cons, specSelected, h, hc, ih]

theorem firstMissingRequired_isSome (schema : List Column) :
    ∀ l : List (String × Val), (∃ p ∈ l, isMissingRequired schema p = true) →
      ∃ col, firstMissingRequired schema l = some col := by
  intro l
  induction l with
  | nil => rintro ⟨p, hp, _⟩; cases hp
  | cons q rest ih =>
    rintro ⟨p, hp, hbad⟩
    obtain ⟨col0, v0⟩ := q
    simp only [firstMissingRequired]
    cases h : findCol schema col0 with
    | none =>
      rcases List.mem_cons.mp hp with rfl | hmem
      · simp [isMissingRequired, h] at hbad
      · exact ih ⟨p, hmem, hbad⟩
    | some meta =>
      by_cases hc : (meta.isNullable == "NO" && meta.colDefault.isNone && v0 == Val.null) = true
      · exact ⟨col0, by simp [hc]⟩
      · simp only [hc, if_false]
        rcases List.mem_cons.mp hp with rfl | hmem
        · simp [isMissingRequired, h] at hbad
          exact absurd (by simp [hbad.1.1, hbad.1.2, hbad.2]) hc
        · exact ih ⟨p, hmem, hbad⟩

theorem firstMissingRequired_sound (schema : List Column) :
    ∀ (l : List (String × Val)) (col : String),
      firstMissingRequired schema l = some col →
      ∃ m, findCol schema col = some m ∧ m.isNullable = "NO" ∧ m.colDefault = none ∧
        (col, Val.null) ∈ l := by
  intro l
  induction l with
  | nil => intro col h; cases h
  | cons q rest ih =>
    intro col h
    obtain ⟨col0, v0⟩ := q
    simp only [firstMissingRequired] at h
    split at h
    · rename_i meta hf
      split at h
      · rename_i hc
        cases h
        simp only [Bool.and_eq_true, beq_iff_eq, Option.isNone_iff_eq_none] at hc
        refine ⟨meta, hf, hc.1.1, hc.1.2, ?_⟩
        have hv : v0 = Val.null := hc.2
        subst hv
        exact List.mem_cons_self _ _
      · obtain ⟨m, h1, h2, h3, h4⟩ := ih col h
        exact ⟨m, h1, h2, h3, List.mem_cons_of_mem _ h4⟩
    · obtain ⟨m, h1, h2, h3, h4⟩ := ih col h
      exact ⟨m, h1, h2, h3, List.mem_cons_of_mem _ h4⟩

theorem getField_eraseField_ne (f : Form) (k0 k : String) (h : (k == k0) = false) :
    getField (eraseField f k0) k = getField f k := by
  induction f with
  | nil => rfl
  | cons p rest ih =>
    by_cases h1 : (p.1 == k0) = true
    · have hpk0 : p.1 = k0 := by simpa using h1
      have hk : (p.1 == k) = false := by
        have hne : k ≠ k0 := by simpa using h
        rw [hpk0]
        simpa using hne.symm
      have hdrop : eraseField (p :: rest) k0 = eraseField rest k0 := by
        simp [eraseField, List.filter_cons, h1]
      rw [hdrop, ih]
      unfold getField
      rw [@List.find?_cons_of_neg _ (fun q => q.1 == k) p rest (by simp [hk])]
    · have hkeep : eraseField (p :: rest) k0 = p :: eraseField rest k0 := by
        simp [eraseField, List.filter_cons, h1]
      rw [hkeep]
      unfold getField
      cases h2 : (p.1 == k) with
      | true =>
        rw [@List.find?_cons_of_pos _ (fun q => q.1 == k) p (eraseField rest k0) h2,
          @List.find?_cons_of_pos _ (fun q => q.1 == k) p rest h2]
      | false =>
        rw [@List.find?_cons_of_neg _ (fun q => q.1 == k) p (eraseField rest k0) (by simp [h2]),
          @List.find?_cons_of_neg _ (fun q => q.1 == k) p rest (by simp [h2])]
        exact ih

theorem getField_eraseField_self (f : Form) (k0 : String) :
    getField (eraseField f k0) k0 = none := by
  induction f with
  | nil => rfl
  | cons p rest ih =>
    by_cases h1 : (p.1 == k0) = true
    · have hdrop : eraseField (p :: rest) k0 = eraseField rest k0 := by
        simp [eraseField, List.filter_cons, h1]
      rw [hdrop]
      exact ih
    · have hkeep : eraseField (p :: rest) k0 = p :: eraseField rest k0 := by
        simp [eraseField, List.filter_cons, h1]
      rw [hkeep]
      unfold getField
      rw [@List.find?_cons_of_neg _ (fun q => q.1 == k0) p (eraseField rest k0) (by simpa using h1)]
      exact ih

theorem specFallback_cons (f : Form) (k k2 : String) (rest : List String) :
    specFallback f (k :: k2 :: rest) = pyOr (getField f k) (specFallback f (k2 :: rest)) := by
  cases h : getField f k with
  | none => simp [specFallback, pyOr, h]
  | some v => by_cases hv : v = "" <;> simp [specFallback, pyOr, h, hv]

theorem submit_paths (env : Env) (pyInt : String → Option Int) (f : Form) :
    (submit env pyInt f).rows = env.rows ∧ (submit env pyInt f).inserts = 0 ∧
      (submit env pyInt f).resp ≠ Resp.redirectSuccess ∨
    env.insertOutcome = InsertOutcome.ok ∧
      submit env pyInt f = ⟨Resp.redirectSuccess, env.rows ++ [builtRow env pyInt f], 1⟩ ∨
    env.insertOutcome = InsertOutcome.uniqueViolation ∧
      submit env pyInt f = ⟨Resp.duplicateValue, env.rows, 1⟩ ∨
    env.insertOutcome = InsertOutcome.integrityError ∧
      submit env pyInt f = ⟨Resp.integrityError, env.rows, 1⟩ ∨
    env.insertOutcome = InsertOutcome.otherError ∧
      submit env pyInt f = ⟨Resp.genericError, env.rows, 1⟩ := by
  unfold submit insertStage
  split
  · split
    · exact Or.inl ⟨rfl, rfl, fun hh => Resp.noConfusion hh⟩
    · exact Or.inl ⟨rfl, rfl, fun hh => Resp.noConfusion hh⟩
    · split
      · exact Or.inl ⟨rfl, rfl, fun hh => Resp.noConfusion hh⟩
      · split
        · exact Or.inl ⟨rfl, rfl, fun hh => Resp.noConfusion hh⟩
        · cases h : env.insertOutcome with
          | ok => exact Or.inr (Or.inl ⟨rfl, rfl⟩)
          | uniqueViolation => exact Or.inr (Or.inr (Or.inl ⟨rfl, rfl⟩))
          | integrityError => exact Or.inr (Or.inr (Or.inr (Or.inl ⟨rfl, rfl⟩)))
          | otherError => exact Or.inr (Or.inr (Or.inr (Or.inr ⟨rfl, rfl⟩)))
  · exact Or.inl ⟨rfl, rfl, fun hh => Resp.noConfusion hh⟩

/-! ## Claim theorems -/

/-- C3: the INSERT statement built by `/submit` names exactly those columns of the
fixed list `desiredOrder` that are present in the introspected `registration`
schema, in that fixed order, excluding a column whose candidate value is None
(`Val.null`) when the column has a database default. -/
theorem insert_columns_are_filtered_desired_order
    (env : Env) (pyInt : String → Option Int) (f : Form) :
    (builtRow env pyInt f).map Prod.fst =
      desiredOrder.filter (specSelected env.schema (candOf env.schema pyInt f)) :=
  buildOver_map_fst env.schema (candOf env.schema pyInt f) desiredOrder

/-- C4: when the `user_id` column has an integer data type and the form value is
absent or unparseable, the candidate is NULL, and since the column has a database
default it is omitted from the INSERT (so the sequence default applies). -/
theorem userid_unparseable_omitted_from_insert
    (env : Env) (pyInt : String → Option Int) (f : Form) (col : Column)
    (hcol : findCol env.schema "user_id" = some col)
    (hint : hasIntType col.dataType = true)
    (hdef : col.colDefault.isSome = true)
    (hraw : getField f "user_id" = none ∨
      ∃ s, getField f "user_id" = some s ∧ pyInt s = none) :
    candOf env.schema pyInt f "user_id" = Val.null ∧
    "user_id" ∉ (builtRow env pyInt f).map Prod.fst := by
  have hcand : candOf env.schema pyInt f "user_id" = Val.null := by
    unfold candOf userIdCand
    rw [hcol]
    rcases hraw with hnone | ⟨s, hs, hps⟩
    · simp [hint, hnone]
    · simp [hint, hs, hps]
  refine ⟨hcand, ?_⟩
  intro hmem
  unfold builtRow at hmem
  rw [buildOver_map_fst] at hmem
  have hsel := (List.mem_filter.mp hmem).2
  unfold specSelected at hsel
  rw [hcol] at hsel
  simp [hcand, hdef] at hsel

/-- C7: no request of the system updates or deletes a registration row: serving
any request leaves the table unchanged or appends exactly one new row. -/
theorem registration_rows_append_only
    (env : Env) (pyInt : String → Option Int) (req : Request) :
    rowsAfter env pyInt req = env.rows ∨
      ∃ r, rowsAfter env pyInt req = env.rows ++ [r] := by
  cases req
  case submitPost f =>
    rcases submit_paths env pyInt f with ⟨hr, _, _⟩ | ⟨_, h⟩ | ⟨_, h⟩ | ⟨_, h⟩ | ⟨_, h⟩
    · exact Or.inl hr
    · exact Or.inr ⟨builtRow env pyInt f, by rw [rowsAfter, h]⟩
    · exact Or.inl (by rw [rowsAfter, h])
    · exact Or.inl (by rw [rowsAfter, h])
    · exact Or.inl (by rw [rowsAfter, h])
  all_goals exact Or.inl rfl

/-- C8: each POST `/submit` executes at most one INSERT, and exactly one on the
success path, which commits the new row and then redirects to `/success`. -/
theorem submit_at_most_one_insert
    (env : Env) (pyInt : String → Option Int) (f : Form) :
    (submit env pyInt f).inserts ≤ 1 ∧
      ((submit env pyInt f).resp = Resp.redirectSuccess →
        (submit env pyInt f).inserts = 1 ∧
        (submit env pyInt f).rows = env.rows ++ [builtRow env pyInt f]) := by
  rcases submit_paths env pyInt f with ⟨_, hi, hne⟩ | ⟨_, h⟩ | ⟨_, h⟩ | ⟨_, h⟩ | ⟨_, h⟩
  · exact ⟨by rw [hi]; exact Nat.zero_le 1, fun hresp => absurd hresp hne⟩
  · rw [h]; exact ⟨Nat.le_refl 1, fun _ => ⟨rfl, rfl⟩⟩
  · rw [h]; exact ⟨Nat.le_refl 1, fun hresp => absurd hresp (fun hh => Resp.noConfusion hh)⟩
  · rw [h]; exact ⟨Nat.le_refl 1, fun hresp => absurd hresp (fun hh => Resp.noConfusion hh)⟩
  · rw [h]; exact ⟨Nat.le_refl 1, fun hresp => absurd hresp (fun hh => Resp.noConfusion hh)⟩

/-- C1 (amended): when the DB is connected, the duplicate-check queries do not
raise, and the form carries a non-empty email that some row matches
case-insensitively or a non-empty username that some row matches exactly, the
handler returns HTTP 409 and the table is unchanged with no INSERT executed. -/
theorem duplicate_precheck_returns_409
    (env : Env) (pyInt : String → Option Int) (f : Form)
    (hconn : env.connected = true)
    (hraise : env.checkRaises = false)
    (hhit : emailHit env f = true ∨ usernameHit env f = true) :
    Resp.status (submit env pyInt f).resp = 409 ∧
    (submit env pyInt f).rows = env.rows ∧
    (submit env pyInt f).inserts = 0 := by
  have husername : usernameHit env f = true →
      usernameCheck env (usernameOf f) ≠ CheckResult.proceed := by
    intro hu
    unfold usernameHit at hu
    unfold usernameCheck
    cases huf : usernameOf f with
    | none => rw [huf] at hu; exact absurd hu (by simp)
    | some u =>
      rw [huf] at hu
      rw [Bool.and_eq_true] at hu
      obtain ⟨h1, h2⟩ := hu
      have h1' : ¬(u = "") := by simpa using h1
      simp [h1', h2]
  have hnp : dupCheck env (emailOf f) (usernameOf f) ≠ CheckResult.proceed := by
    unfold dupCheck
    rw [if_neg (show ¬(env.checkRaises = true) by simp [hraise])]
    rcases hhit with he | hu
    · unfold emailHit at he
      cases hef : emailOf f with
      | none => rw [hef] at he; exact absurd he (by simp)
      | some e =>
        rw [hef] at he
        rw [Bool.and_eq_true] at he
        obtain ⟨h1, h2⟩ := he
        have h1' : ¬(e = "") := by simpa using h1
        simp [h1', h2]
    · cases hef : emailOf f with
      | none => exact husername hu
      | some e =>
        by_cases hee : e = ""
        · subst hee
          simpa using husername hu
        · by_cases hany : env.rows.any (emailMatches e) = true
          · simp [hee, hany]
          · simp only [Bool.not_eq_true] at hany
            simpa [hee, hany] using husername hu
  unfold submit
  rw [hconn]
  cases hd : dupCheck env (emailOf f) (usernameOf f) with
  | retEmail e => simp [hd, Resp.status]
  | retUsername u => simp [hd, Resp.status]
  | proceed => exact absurd hd hnp

/-- C1 counterexample: the environment holds a row whose email is the empty
string; a request whose email is also the empty string matches it
case-insensitively, yet the handler does not return 409 — Python truthiness
skips the pre-check for an empty email, the INSERT runs, and the database
unique constraint turns it into a 400 duplicate-value response. -/
theorem duplicate_empty_email_not_409 :
    envEmpty.connected = true ∧ envEmpty.checkRaises = false ∧
    envEmpty.rows.any (emailMatches "") = true ∧
    emailOf formEmptyEmail = some "" ∧
    (submit envEmpty pyIntNone formEmptyEmail).resp = Resp.duplicateValue ∧
    Resp.status (submit envEmpty pyIntNone formEmptyEmail).resp = 400 := by
  decide

/-- Witness for C1 at a concrete duplicate: a case-variant of an existing
email is rejected with 409 and nothing is inserted. -/
theorem duplicate_precheck_returns_409_witness :
    Resp.status (submit envA pyIntNone formDupEmail).resp = 409 ∧
    (submit envA pyIntNone formDupEmail).rows = envA.rows ∧
    (submit envA pyIntNone formDupEmail).inserts = 0 :=
  duplicate_precheck_returns_409 envA pyIntNone formDupEmail rfl rfl
    (Or.inl (by decide))

/-- C2: the duplicate pre-check is best-effort.  If it raises, the handler
still proceeds to the INSERT stage; if the INSERT raises a UniqueViolation the
handler rolls back (table unchanged) and answers 400; and provided the
database unique constraint is the real guarantee (an INSERT that would
duplicate an email case-insensitively or a username does not succeed), no
committed row duplicates the table it was added to. -/
theorem duplicate_check_best_effort
    (env : Env) (pyInt : String → Option Int) (f : Form)
    (hconn : env.connected = true) :
    (env.checkRaises = true → submit env pyInt f = insertStage env pyInt f) ∧
    (env.insertOutcome = InsertOutcome.uniqueViolation →
      (submit env pyInt f).rows = env.rows ∧
      (1 ≤ (submit env pyInt f).inserts →
        (submit env pyInt f).resp = Resp.duplicateValue ∧
        Resp.status (submit env pyInt f).resp = 400)) ∧
    ((env.insertOutcome = InsertOutcome.ok →
        dupAgainst (builtRow env pyInt f) env.rows = false) →
      (submit env pyInt f).rows = env.rows ∨
      ((submit env pyInt f).rows = env.rows ++ [builtRow env pyInt f] ∧
        dupAgainst (builtRow env pyInt f) env.rows = false)) := by
  refine ⟨?_, ?_, ?_⟩
  · intro hcr
    unfold submit dupCheck
    rw [hconn, hcr]
    simp
  · intro huv
    rcases submit_paths env pyInt f with ⟨hr, hi, _⟩ | ⟨hok, _⟩ | ⟨_, h⟩ | ⟨hie, _⟩ | ⟨hoe, _⟩
    · refine ⟨hr, fun hge => ?_⟩
      rw [hi] at hge
      exact absurd hge (by decide)
    · rw [hok] at huv; exact InsertOutcome.noConfusion huv
    · rw [h]; exact ⟨rfl, fun _ => ⟨rfl, rfl⟩⟩
    · rw [hie] at huv; exact InsertOutcome.noConfusion huv
    · rw [hoe] at huv; exact InsertOutcome.noConfusion huv
  · intro hdup
    rcases submit_paths env pyInt f with ⟨hr, _, _⟩ | ⟨hok, h⟩ | ⟨_, h⟩ | ⟨_, h⟩ | ⟨_, h⟩
    · exact Or.inl hr
    · exact Or.inr ⟨by rw [h], hdup hok⟩
    · exact Or.inl (by rw [h])
    · exact Or.inl (by rw [h])
    · exact Or.inl (by rw [h])

/-- Witness for C2: with the pre-check raising and the database reporting a
UniqueViolation, the handler reaches the INSERT stage, leaves the table
unchanged, and answers with the duplicate-value 400 response. -/
theorem duplicate_check_best_effort_witness :
    submit envRaise pyIntNone formDupEmail = insertStage envRaise pyIntNone formDupEmail ∧
    (submit envRaise pyIntNone formDupEmail).rows = envRaise.rows ∧
    (submit envRaise pyIntNone formDupEmail).resp = Resp.duplicateValue := by
  have h := duplicate_check_best_effort envRaise pyIntNone formDupEmail rfl
  exact ⟨h.1 rfl, (h.2.1 rfl).1, ((h.2.1 rfl).2 (by decide)).1⟩

/-- C5: when some selected insert column is NOT NULL without a default and its
value is None, the handler answers 400 naming such a column, and the INSERT is
never executed. -/
theorem required_column_missing_400
    (env : Env) (pyInt : String → Option Int) (f : Form)
    (hconn : env.connected = true)
    (hproceed : dupCheck env (emailOf f) (usernameOf f) = CheckResult.proceed)
    (hbad : ∃ p ∈ builtRow env pyInt f, isMissingRequired env.schema p = true) :
    ∃ col, (submit env pyInt f).resp = Resp.requiredMissing col ∧
      Resp.status (submit env pyInt f).resp = 400 ∧
      (submit env pyInt f).inserts = 0 ∧
      (submit env pyInt f).rows = env.rows ∧
      ∃ m, findCol env.schema col = some m ∧ m.isNullable = "NO" ∧
        m.colDefault = none ∧ (col, Val.null) ∈ builtRow env pyInt f := by
  obtain ⟨col, hfmr⟩ := firstMissingRequired_isSome env.schema _ hbad
  obtain ⟨m, hm1, hm2, hm3, hm4⟩ := firstMissingRequired_sound env.schema _ col hfmr
  have hne : (builtRow env pyInt f).isEmpty = false := by
    obtain ⟨p, hp, _⟩ := hbad
    cases hl : builtRow env pyInt f with
    | nil => rw [hl] at hp; cases hp
    | cons a l => rfl
  have hsubmit : submit env pyInt f = ⟨Resp.requiredMissing col, env.rows, 0⟩ := by
    unfold submit insertStage
    rw [hconn, hproceed]
    simp [hne, hfmr]
  rw [hsubmit]
  exact ⟨col, rfl, rfl, rfl, rfl, m, hm1, hm2, hm3, hm4⟩

/-- Witness for C5: a form without any username leaves the NOT NULL
`username` column valueless, so the request is rejected with 400. -/
theorem required_column_missing_400_witness :
    ∃ col, (submit envA pyIntNone formNoUsername).resp = Resp.requiredMissing col ∧
      Resp.status (submit envA pyIntNone formNoUsername).resp = 400 ∧
      (submit envA pyIntNone formNoUsername).inserts = 0 ∧
      (submit envA pyIntNone formNoUsername).rows = envA.rows ∧
      ∃ m, findCol envA.schema col = some m ∧ m.isNullable = "NO" ∧
        m.colDefault = none ∧ (col, Val.null) ∈ builtRow envA pyIntNone formNoUsername :=
  required_column_missing_400 envA pyIntNone formNoUsername rfl (by decide) (by decide)

/-- C6: POST /login stores the submitted username in the session and redirects
to /home_loggedin; the outcome depends only on the username field, never on a
password. -/
theorem login_stores_username_ignores_password
    (s : SessionState) (f g : Form)
    (h : getField f "username" = getField g "username") :
    (loginPost s f).1 = LoginResp.redirectHomeLoggedin ∧
    (loginPost s f).2.user = some (getField f "username") ∧
    loginPost s f = loginPost s g := by
  refine ⟨rfl, rfl, ?_⟩
  unfold loginPost
  rw [h]

/-- Witness for C6: two logins with equal usernames but different passwords
produce identical results. -/
theorem login_stores_username_witness :
    (loginPost sess0 formLoginA).1 = LoginResp.redirectHomeLoggedin ∧
    (loginPost sess0 formLoginA).2.user = some (getField formLoginA "username") ∧
    loginPost sess0 formLoginA = loginPost sess0 formLoginB :=
  login_stores_username_ignores_password sess0 formLoginA formLoginB (by decide)

/-- Witness for C4 at a concrete schema and form: `user_id` submitted as the
unparseable string abc is dropped from the INSERT column list. -/
theorem userid_unparseable_omitted_witness :
    candOf envA.schema pyIntNone formBadUid "user_id" = Val.null ∧
    "user_id" ∉ (builtRow envA pyIntNone formBadUid).map Prod.fst :=
  userid_unparseable_omitted_from_insert envA pyIntNone formBadUid userIdColA
    (by decide) (by decide) (by decide) (Or.inr ⟨"abc", by decide, rfl⟩)

/-- Witness for C8 at a concrete successful submission. -/
theorem submit_at_most_one_insert_witness :
    (submit envA pyIntNone formA).inserts = 1 ∧
    (submit envA pyIntNone formA).rows = envA.rows ++ [builtRow envA pyIntNone formA] :=
  (submit_at_most_one_insert envA pyIntNone formA).2 (by decide)

/-- C9: a missing, empty, or unparseable age form value is coerced to None, and
such a value never by itself changes the outcome: the request behaves exactly
as if the age field had not been submitted at all. -/
theorem age_unparseable_coerced_none
    (env : Env) (pyInt : String → Option Int) (f : Form)
    (h : getField f "age" = none ∨ getField f "age" = some "" ∨
      ∃ s, getField f "age" = some s ∧ pyInt s = none) :
    ageOf pyInt f = none ∧
    submit env pyInt f = submit env pyInt (eraseField f "age") := by
  have hage : ageOf pyInt f = none := by
    unfold ageOf
    rcases h with h0 | h0 | ⟨s, hs, hps⟩
    · rw [h0]
    · rw [h0]; simp
    · rw [hs]
      by_cases hse : s = "" <;> simp [hse, hps]
  have hage' : ageOf pyInt (eraseField f "age") = none := by
    unfold ageOf
    rw [getField_eraseField_self]
  have hfn : fullNameOf (eraseField f "age") = fullNameOf f := by
    unfold fullNameOf
    rw [getField_eraseField_ne f "age" "full_name" (by decide),
      getField_eraseField_ne f "age" "name" (by decide),
      getField_eraseField_ne f "age" "fullname" (by decide),
      getField_eraseField_ne f "age" "fullName" (by decide)]
  have hu : usernameOf (eraseField f "age") = usernameOf f := by
    unfold usernameOf
    rw [getField_eraseField_ne f "age" "username" (by decide),
      getField_eraseField_ne f "age" "user" (by decide)]
  have hpw : passwordHashOf (eraseField f "age") = passwordHashOf f := by
    unfold passwordHashOf
    rw [getField_eraseField_ne f "age" "password_hash" (by decide),
      getField_eraseField_ne f "age" "password" (by decide)]
  have hem : emailOf (eraseField f "age") = emailOf f := by
    unfold emailOf
    rw [getField_eraseField_ne f "age" "email" (by decide)]
  have hph : phoneOf (eraseField f "age") = phoneOf f := by
    unfold phoneOf
    rw [getField_eraseField_ne f "age" "phone" (by decide)]
  have hfa : fatherNameOf (eraseField f "age") = fatherNameOf f := by
    unfold fatherNameOf
    rw [getField_eraseField_ne f "age" "father_name" (by decide),
      getField_eraseField_ne f "age" "father" (by decide)]
  have hmo : motherNameOf (eraseField f "age") = motherNameOf f := by
    unfold motherNameOf
    rw [getField_eraseField_ne f "age" "mother_name" (by decide),
      getField_eraseField_ne f "age" "mother" (by decide)]
  have had : addressOf (eraseField f "age") = addressOf f := by
    unfold addressOf
    rw [getField_eraseField_ne f "age" "address" (by decide)]
  have hui : getField (eraseField f "age") "user_id" = getField f "user_id" :=
    getField_eraseField_ne f "age" "user_id" (by decide)
  have hcand : candOf env.schema pyInt (eraseField f "age") =
      candOf env.schema pyInt f := by
    funext col
    unfold candOf userIdCand
    rw [hfn, hu, hpw, hem, hph, hfa, hmo, had, hui, hage, hage']
  refine ⟨hage, ?_⟩
  unfold submit insertStage builtRow
  rw [hem, hu, hcand]

/-- Witness for C9: submitting age 20 under a parser that fails on 20 yields
the same outcome as submitting no age at all. -/
theorem age_unparseable_coerced_none_witness :
    ageOf pyIntNone formA = none ∧
    submit envA pyIntNone formA = submit envA pyIntNone (eraseField formA "age") :=
  age_unparseable_coerced_none envA pyIntNone formA
    (Or.inr (Or.inr ⟨"20", by decide, rfl⟩))

/-- C10 (amended): each handler field is the Python or-chain over its listed
form-field names — the first name whose value is present and non-empty wins,
with the canonical name taking precedence only when its value is non-empty
(an empty canonical value falls through to the alternatives). -/
theorem form_field_fallback_chains (f : Form) :
    fullNameOf f = specFallback f ["full_name", "name", "fullname", "fullName"] ∧
    usernameOf f = specFallback f ["username", "user"] ∧
    passwordHashOf f = specFallback f ["password_hash", "password"] ∧
    fatherNameOf f = specFallback f ["father_name", "father"] ∧
    motherNameOf f = specFallback f ["mother_name", "mother"] ∧
    (∀ v, getField f "full_name" = some v → v ≠ "" → fullNameOf f = some v) ∧
    (∀ v, getField f "username" = some v → v ≠ "" → usernameOf f = some v) ∧
    (∀ v, getField f "password_hash" = some v → v ≠ "" → passwordHashOf f = some v) ∧
    (∀ v, getField f "father_name" = some v → v ≠ "" → fatherNameOf f = some v) ∧
    (∀ v, getField f "mother_name" = some v → v ≠ "" → motherNameOf f = some v) := by
  refine ⟨?_, ?_, ?_, ?_, ?_, ?_, ?_, ?_, ?_, ?_⟩
  · rw [specFallback_cons, specFallback_cons, specFallback_cons]; rfl
  · rw [specFallback_cons]; rfl
  · rw [specFallback_cons]; rfl
  · rw [specFallback_cons]; rfl
  · rw [specFallback_cons]; rfl
  · intro v hv hne; unfold fullNameOf pyOr; rw [hv]; simp [hne]
  · intro v hv hne; unfold usernameOf pyOr; rw [hv]; simp [hne]
  · intro v hv hne; unfold passwordHashOf pyOr; rw [hv]; simp [hne]
  · intro v hv hne; unfold fatherNameOf pyOr; rw [hv]; simp [hne]
  · intro v hv hne; unfold motherNameOf pyOr; rw [hv]; simp [hne]

/-- C10 counterexample: a form in which the canonical full_name field is
present (with the empty value an empty HTML input submits) while the
alternative name field carries bob; the handler picks bob, so the canonical
name does not take precedence when its value is empty. -/
theorem canonical_empty_falls_back :
    getField formEmptyCanonical "full_name" = some "" ∧
    fullNameOf formEmptyCanonical = some "bob" := by
  decide

/-- Witness for C10 at a concrete form: a non-empty canonical full_name wins. -/
theorem form_field_fallback_chains_witness :
    fullNameOf formA = some "Alice A" :=
  (form_field_fallback_chains formA).2.2.2.2.2.1 "Alice A" (by decide) (by decide)

end KeralaStrings
